import Mathlib

/-!
Verification development for the Talent Scout recruitment-automation core.

The Python sources under `talent_scout/` are shallowly embedded:

* pure data records (`database/models.py`) become Lean structures;
* Python floats are modelled as rationals (every IEEE float value is a
  rational number); timestamps (`datetime`) are modelled as minute counts
  (naturals) from a Monday-midnight epoch, so Python's
  `date.weekday()` is `day % 7`; the timezone tag of a `datetime` is not
  modelled;
* fallible calls return `Except String α`: `.error e` stands for a raised
  Python exception with message `e`.  External collaborators (LLM, Gmail,
  Calendar, Slack, Supabase) are passed in as `Except`-valued arguments;
  outbound side effects are collected in an explicit `Effect` list;
* a workflow node that can let an exception escape its own boundary has
  result type `Except String σ`; a node whose whole body is guarded by
  `try/except` returns a plain state.
-/

namespace TalentScout

/-! ## Data model (`talent_scout/database/models.py`) -/

/-- `CandidateSkills` (models.py): the three skill lists of a parsed resume. -/
structure CandidateSkills where
  technical_skills : List String
  soft_skills : List String
  certifications : List String
  deriving DecidableEq

/-- `CandidateExperience` (models.py). -/
structure CandidateExperience where
  company : String
  role : String
  duration : String
  description : Option String
  projects : List String
  deriving DecidableEq

/-- `CandidateEducation` (models.py). -/
structure CandidateEducation where
  institution : String
  degree : String
  field : String
  year : Option String
  deriving DecidableEq

/-- `ResumeData` (models.py): structured resume data extracted from a PDF.
`total_years_experience: Optional[float]` is modelled as an optional rational. -/
structure ResumeData where
  name : String
  email : Option String
  phone : Option String
  skills : CandidateSkills
  experience : List CandidateExperience
  education : List CandidateEducation
  summary : Option String
  total_years_experience : Option ℚ
  deriving DecidableEq

/-- `JobDescription` (models.py). -/
structure JobDescription where
  title : String
  company : String
  description : String
  required_skills : List String
  preferred_skills : List String
  experience_required : Option String
  education_required : Option String
  deriving DecidableEq

/-- `Candidate` (models.py).  `resume_data` is stored in Python as the
`model_dump()` dict of the parsed `ResumeData`; the snapshot is modelled by
the typed record itself.  `job_description` is the serialized JSON string,
kept as an opaque `String` exactly as in the source.  Timestamps are minute
counts. -/
structure Candidate where
  id : Option String
  name : String
  email : Option String
  phone : Option String
  resume_data : ResumeData
  fit_score : ℚ
  job_description : String
  status : String
  created_at : Option ℕ
  updated_at : Option ℕ
  email_sent : Bool
  email_draft_id : Option String
  reply_received : Bool
  interview_scheduled : Bool
  interview_time : Option ℕ
  calendar_event_id : Option String
  deriving DecidableEq

/-! ## Text analysis of the fit-score engine (`utils/scoring.py`)

`calculate_fit_score` feeds two document strings to scikit-learn's
`TfidfVectorizer(lowercase=True, stop_words="english", ngram_range=(1, 2))`.
The vectorizer's analysis chain is embedded: lowercase, extract maximal runs
of word characters of length at least 2 (token pattern `\b\w\w+\b`), drop
English stop words, then emit unigrams and space-joined bigrams.  The
concrete English stop-word list is data of the external library and is passed
in as the `stopWords` parameter.  Lowercasing is modelled on ASCII via
`Char.toLower`. -/

/-- A regex word character (`\w`): letters, digits and underscore. -/
def isWordChar (c : Char) : Bool := c.isAlphanum || c = '_'

/-- Maximal runs of word characters of a character list; `acc` holds the
current run reversed. -/
def wordRunsGo : List Char → List Char → List (List Char)
  | acc, [] => if acc.isEmpty then [] else [acc.reverse]
  | acc, c :: rest =>
    if isWordChar c then wordRunsGo (c :: acc) rest
    else if acc.isEmpty then wordRunsGo [] rest
    else acc.reverse :: wordRunsGo [] rest

/-- Tokenization of one document: lowercase, split into word-character runs,
keep only tokens of length at least 2 (the `\b\w\w+\b` token pattern). -/
def tokenizeText (s : String) : List String :=
  (wordRunsGo [] (s.data.map Char.toLower)).filterMap fun run =>
    if 2 ≤ run.length then some (String.mk run) else none

/-- Space-joined bigrams of a token list (`ngram_range=(1, 2)`). -/
def bigramsOf : List String → List String
  | a :: b :: rest => (a ++ " " ++ b) :: bigramsOf (b :: rest)
  | _ => []

/-- The vectorizer's full analysis of one document: tokens minus stop words,
followed by the bigrams of what is left. -/
def analyzeDoc (stopWords : List String) (s : String) : List String :=
  let toks := (tokenizeText s).filter fun t => !(stopWords.contains t)
  toks ++ bigramsOf toks

/-- The corpus vocabulary is empty exactly when no document contributes a
term; `TfidfVectorizer.fit_transform` raises `ValueError` in that case. -/
def emptyVocabulary (stopWords : List String) (docs : List String) : Bool :=
  docs.all fun d => (analyzeDoc stopWords d).isEmpty

/-! ## Building the two documents (`utils/scoring.py`) -/

/-- Appends an optional string only when it is Python-truthy (`if x:` skips
both `None` and the empty string). -/
def truthyStr : Option String → List String
  | some s => if s == "" then [] else [s]
  | none => []

/-- Structure-preserving `concatMap` used to flatten the per-entry parts. -/
def concatMap (f : α → List β) : List α → List β
  | [] => []
  | a :: l => f a ++ concatMap f l

/-- Python's `" ".join(parts)`. -/
def joinSpace (l : List String) : String := String.intercalate " " l

/-- `_resume_to_text` (scoring.py): skills repeated three times (list-level
repetition, as `all_skills * 3`), then per-experience role, company, truthy
description and projects, then per-education degree, field, institution, then
truthy summary, then a years-experience phrase when the count is truthy
(Python skips `None` and `0.0`; the numeric rendering is modelled by
`toString`). -/
def resume_to_text (r : ResumeData) : String :=
  let all_skills :=
    r.skills.technical_skills ++ r.skills.soft_skills ++ r.skills.certifications
  let expParts := concatMap
    (fun e => [e.role, e.company] ++ truthyStr e.description ++ e.projects)
    r.experience
  let eduParts := concatMap (fun e => [e.degree, e.field, e.institution]) r.education
  let yearsPart : List String :=
    match r.total_years_experience with
    | some y => if y == 0 then [] else [toString y ++ " years experience"]
    | none => []
  joinSpace (all_skills ++ all_skills ++ all_skills ++ expParts ++ eduParts
    ++ truthyStr r.summary ++ yearsPart)

/-- `_job_description_to_text` (scoring.py): title, company, description,
required skills repeated three times, preferred skills twice, then the truthy
requirement strings. -/
def job_description_to_text (j : JobDescription) : String :=
  joinSpace ([j.title, j.company, j.description]
    ++ (j.required_skills ++ j.required_skills ++ j.required_skills)
    ++ (j.preferred_skills ++ j.preferred_skills)
    ++ truthyStr j.experience_required ++ truthyStr j.education_required)

/-! ## TF-IDF and cosine similarity

The numeric core of scikit-learn over the two-document corpus, in exact real
arithmetic (the Python computation is in floating point).  `tf` is the raw
term count, `idf t = ln((1 + n) / (1 + df t)) + 1` (smooth idf), rows are
l2-normalized and `cosine_similarity` takes the dot product of the (zero-safe)
normalized rows. -/

/-- Number of corpus documents whose analysis contains the term. -/
def docFreq (stopWords : List String) (docs : List String) (t : String) : ℕ :=
  (docs.filter fun d => (analyzeDoc stopWords d).contains t).length

/-- The corpus vocabulary: every term of every document, without duplicates. -/
def vocabularyOf (stopWords : List String) (docs : List String) : List String :=
  (concatMap (analyzeDoc stopWords) docs).dedup

/-- Smooth inverse document frequency of one term. -/
noncomputable def idfOf (stopWords : List String) (docs : List String) (t : String) : ℝ :=
  Real.log ((1 + (docs.length : ℝ)) / (1 + (docFreq stopWords docs t : ℝ))) + 1

/-- The (unnormalized) tf-idf row of one document over the corpus vocabulary. -/
noncomputable def tfidfRow (stopWords : List String) (docs : List String) (d : String) :
    List ℝ :=
  (vocabularyOf stopWords docs).map fun t =>
    ((analyzeDoc stopWords d).count t : ℝ) * idfOf stopWords docs t

/-- Euclidean norm of a vector. -/
noncomputable def l2norm (v : List ℝ) : ℝ := Real.sqrt ((v.map fun x => x ^ 2).sum)

/-- Zero-safe l2 normalization (scikit-learn's `normalize` leaves an all-zero
row unchanged). -/
noncomputable def l2normalize (v : List ℝ) : List ℝ :=
  if l2norm v = 0 then v else v.map fun x => x / l2norm v

/-- Dot product of two vectors. -/
noncomputable def dotProduct (v w : List ℝ) : ℝ := (List.zipWith (· * ·) v w).sum

/-- `cosine_similarity` of two rows: dot product of the normalized rows. -/
noncomputable def cosineSimilarity (v w : List ℝ) : ℝ :=
  dotProduct (l2normalize v) (l2normalize w)

/-- Python's `round(x, 2)`, modelled as rounding on reals. -/
noncomputable def pythonRound2 (x : ℝ) : ℝ := (round (x * 100) : ℤ) / 100

/-- `calculate_fit_score` (scoring.py).  The function builds the two
documents, runs `fit_transform` on the two-document corpus and scales the
cosine similarity to 0-100 with two-decimal rounding.  `fit_transform`
raises `ValueError` when the corpus vocabulary is empty, and the
`except` clause of `calculate_fit_score` re-raises, so the empty-vocabulary
case is an `.error` result. -/
noncomputable def calculate_fit_score (stopWords : List String) (r : ResumeData)
    (j : JobDescription) : Except String ℝ :=
  let rdoc := resume_to_text r
  let jdoc := job_description_to_text j
  let docs := [rdoc, jdoc]
  if emptyVocabulary stopWords docs then
    .error "empty vocabulary; perhaps the documents only contain stop words"
  else
    .ok (pythonRound2
      (cosineSimilarity (tfidfRow stopWords docs rdoc) (tfidfRow stopWords docs jdoc) * 100))

/-- A resume with every text field empty: its document is the empty string. -/
def emptyResumeExample : ResumeData :=
  ⟨"", none, none, ⟨[], [], []⟩, [], [], none, none⟩

/-- A job description with every text field empty: its document is two spaces. -/
def emptyJobExample : JobDescription := ⟨"", "", "", [], [], none, none⟩

/-! ## Calendar client (`api_integrations/calendar_client.py`)

`CalendarClient.get_free_slots` walks the next `days_ahead` calendar days
from `now.date()`, skips weekends (`weekday() >= 5`), tries the start hours
9..16, skips slots already begun and slots overlapping a reported busy
interval, stops scanning further days once 3 slots are collected, and
returns the first 3.  Times are minutes from a Monday-midnight epoch; a busy
interval is a `(start, end)` pair of such times.  The human-readable
`display` string of a slot is presentational and not modelled. -/

/-- An interview slot: start and end times in minutes. -/
structure Slot where
  start : ℕ
  stop : ℕ
  deriving DecidableEq

/-- Start time of the slot beginning at `hour` on day number `day`. -/
def slotStartMin (day hour : ℕ) : ℕ := day * 1440 + hour * 60

/-- Python's `date.weekday()`: 0 = Monday .. 6 = Sunday. -/
def weekdayOf (day : ℕ) : ℕ := day % 7

/-- The source's busy test: occupied iff
`slot_start < busy_end and slot_end > busy_start`. -/
def overlapsBusy (s e : ℕ) (busy : List (ℕ × ℕ)) : Bool :=
  busy.any fun b => decide (s < b.2) && decide (b.1 < e)

/-- The loop body for one candidate start hour: skip slots already begun
(`slot_start < now`) and slots overlapping a busy interval. -/
def daySlotAt (now duration : ℕ) (busy : List (ℕ × ℕ)) (day hour : ℕ) : Option Slot :=
  if slotStartMin day hour < now then none
  else if overlapsBusy (slotStartMin day hour) (slotStartMin day hour + duration) busy
  then none
  else some ⟨slotStartMin day hour, slotStartMin day hour + duration⟩

/-- All free slots of one day: hours 9..16 (`range(9, 17)`). -/
def daySlots (now duration : ℕ) (busy : List (ℕ × ℕ)) (day : ℕ) : List Slot :=
  (List.range' 9 8).filterMap (daySlotAt now duration busy day)

/-- The day loop: a weekend day is skipped by `continue` (before the length
check); otherwise the day's slots are appended and the loop breaks once at
least 3 slots are collected. -/
def collectSlots (now duration : ℕ) (busy : List (ℕ × ℕ)) :
    List ℕ → List Slot → List Slot
  | [], acc => acc
  | day :: days, acc =>
    if 5 ≤ weekdayOf day then collectSlots now duration busy days acc
    else if 3 ≤ (acc ++ daySlots now duration busy day).length then
      acc ++ daySlots now duration busy day
    else collectSlots now duration busy days (acc ++ daySlots now duration busy day)

/-- `CalendarClient.get_free_slots`: scan days `now.date() + 0 .. days_ahead - 1`
and return the first 3 collected slots. -/
def get_free_slots (now : ℕ) (days_ahead duration : ℕ) (busy : List (ℕ × ℕ)) :
    List Slot :=
  (collectSlots now duration busy
    ((List.range days_ahead).map fun off => now / 1440 + off) []).take 3

/-! ## Shared string helpers of the agents -/

/-- Python `str.lower()`, on ASCII. -/
def lowerString (s : String) : String := String.mk (s.data.map Char.toLower)

/-- Python `str.strip()`. -/
def stripString (s : String) : String :=
  String.mk (((s.data.dropWhile Char.isWhitespace).reverse.dropWhile
    Char.isWhitespace).reverse)

/-! ## Candidate store (`database/db_manager.py`)

The Supabase table is modelled as an in-memory list of candidates; a raised
network error of a store call is supplied by the caller as an `Except`
argument where it matters. -/

/-- `DatabaseManager.get_candidates_by_status`: all rows with the status. -/
def get_candidates_by_status (db : List Candidate) (status : String) : List Candidate :=
  db.filter fun c => c.status == status

/-- A partial-field update as passed to `DatabaseManager.update_candidate`;
`some v` means the field is in the update dict. -/
structure CandidateUpdate where
  status : Option String := none
  email_sent : Option Bool := none
  reply_received : Option Bool := none
  interview_scheduled : Option Bool := none
  interview_time : Option ℕ := none
  calendar_event_id : Option (Option String) := none
  email_draft_id : Option (Option String) := none
  deriving DecidableEq

/-- Applying an update dict to a row; `update_candidate` also stamps
`updated_at`. -/
def applyCandidateUpdate (now : ℕ) (u : CandidateUpdate) (c : Candidate) : Candidate :=
  { c with
    status := u.status.getD c.status
    email_sent := u.email_sent.getD c.email_sent
    reply_received := u.reply_received.getD c.reply_received
    interview_scheduled := u.interview_scheduled.getD c.interview_scheduled
    interview_time := match u.interview_time with
      | some t => some t
      | none => c.interview_time
    calendar_event_id := u.calendar_event_id.getD c.calendar_event_id
    email_draft_id := u.email_draft_id.getD c.email_draft_id
    updated_at := some now }

/-- `DatabaseManager.update_candidate`: update the row with the given id. -/
def update_candidate_db (db : List Candidate) (cid : String) (u : CandidateUpdate)
    (now : ℕ) : List Candidate :=
  db.map fun c => if c.id == some cid then applyCandidateUpdate now u c else c

/-! ## Update payloads written by the agents -/

/-- `handle_interested_node`'s update dict. -/
def interestedUpdate : CandidateUpdate :=
  { status := some "interested", reply_received := some true }

/-- `handle_schedule_time_node`'s update dict: `t` is the parsed slot start,
`eid` the created calendar event's id. -/
def scheduleUpdate (t : ℕ) (eid : Option String) : CandidateUpdate :=
  { status := some "scheduled", interview_scheduled := some true,
    interview_time := some t, calendar_event_id := some eid }

/-- `handle_not_interested_node`'s update dict. -/
def declineUpdate : CandidateUpdate :=
  { status := some "rejected", reply_received := some true }

/-- `approve_and_send_email`'s update dict. -/
def approveUpdate : CandidateUpdate :=
  { email_sent := some true, status := some "contacted" }

/-- `create_draft_node`'s update dict. -/
def draftIdUpdate (did : String) : CandidateUpdate :=
  { email_draft_id := some (some did) }

/-- Rank of a status on the spec's happy path
screened → contacted → interested → scheduled. -/
def chainRank : String → Option ℕ
  | "screened" => some 0
  | "contacted" => some 1
  | "interested" => some 2
  | "scheduled" => some 3
  | _ => none

/-- The spec's allowed status transitions: forward along the happy path, or
to `rejected` from `contacted` or `interested`. -/
def allowedStatusStep (a b : String) : Bool :=
  (match chainRank a, chainRank b with
   | some i, some j => decide (i ≤ j)
   | _, _ => false)
  || ((a == "contacted" || a == "interested") && b == "rejected")

/-! ## Outbound side effects

Collaborator calls that change the outside world, collected per node run.
Message bodies, notification texts and the slot display strings are
presentational and not carried. -/

/-- A Google Calendar event as the scheduler reads it back. -/
structure CalEvent where
  id : Option String
  hangoutLink : Option String
  deriving DecidableEq

/-- One outbound side effect of a node. -/
inductive Effect where
  | emailSent (recipient : Option String) (subject : String)
  | draftCreated (recipient : Option String) (draft_id : String)
  | draftSent (draft_id : String)
  | dbUpdate (candidate_id : Option String) (upd : CandidateUpdate)
  | eventCreated (attendee : Option String) (start stop : ℕ)
  | slackNotified
  deriving DecidableEq

/-! ## Scheduler agent (`agents/scheduler_agent.py`)

`SchedulerState` is the LangGraph state dict.  Each node takes the outcomes
of its collaborator calls as `Except` arguments; its `try/except` turns any
collaborator failure into the state's `error` slot.  The two handlers whose
opening log line dereferences `state["candidate"].name` before the `try`
block (`handle_interested_node`, `handle_schedule_time_node`) let an
exception escape the node when the candidate slot is unpopulated; that
escape is the outer `.error` of the node's result. -/

/-- The scheduler workflow state (`SchedulerState` TypedDict).  The initial
values are `""`, `None`, `[]`, `{}`; the `selected_slot` slot is declared by
the source but never written by any node. -/
structure SchedulerState where
  candidate_email : String
  message_text : String
  intent : String
  candidate : Option Candidate
  available_slots : List Slot
  selected_slot : Option Slot
  calendar_event : Option CalEvent
  error : String
  deriving DecidableEq

/-- The initial state built by `process_candidate_reply`. -/
def initialSchedulerState (candidate_email message_text : String) : SchedulerState :=
  ⟨candidate_email, message_text, "", none, [], none, none, ""⟩

/-- `detect_intent_node`: classify the reply via the LLM; the label is
`response.content.strip().lower()`.  A raised LLM error is caught and
recorded. -/
def detect_intent_node (llmRes : Except String String) (s : SchedulerState) :
    SchedulerState :=
  match llmRes with
  | .error e => { s with error := e }
  | .ok content => { s with intent := lowerString (stripString content) }

/-- Case-insensitive email match of `get_candidate_node`: the row's email
must be truthy and equal (lowercased) to the sender's address. -/
def emailMatches (c : Candidate) (target : String) : Bool :=
  match c.email with
  | none => false
  | some e => !(e == "") && (lowerString e == lowerString target)

/-- `get_candidate_node`: fetch the candidates whose status is `"contacted"`
(only that status) and take the first case-insensitive email match; no match
records a not-found error.  `dbRes` is the store fetch (`.error` = raised
store exception, caught and recorded). -/
def get_candidate_node (dbRes : Except String (List Candidate)) (s : SchedulerState) :
    SchedulerState :=
  match dbRes with
  | .error e => { s with error := e }
  | .ok db =>
    match (get_candidates_by_status db "contacted").find?
        (fun c => emailMatches c s.candidate_email) with
    | some c => { s with candidate := some c }
    | none => { s with error := "Candidate not found with email: " ++ s.candidate_email }

/-- `handle_interested_node`: fetch up to 3 free slots, email them to the
candidate, set status `interested` and `reply_received`, then notify Slack.
All four collaborator calls are inside the `try`, so each failure is caught
and recorded (the Slack failure included); effects already performed are
kept. -/
def handle_interested_node (slotsRes : Except String (List Slot))
    (sendRes : Except String Unit) (updRes : Except String Bool)
    (ntfRes : Except String Unit) (s : SchedulerState) :
    Except String (SchedulerState × List Effect) :=
  match s.candidate with
  | none => .error "AttributeError"
  | some candidate =>
    .ok <|
      match slotsRes with
      | .error e => ({ s with error := e }, [])
      | .ok slots =>
        let s1 := { s with available_slots := slots }
        match sendRes with
        | .error e => ({ s1 with error := e }, [])
        | .ok _ =>
          let effs := [Effect.emailSent candidate.email "Re: Interview Times"]
          match updRes with
          | .error e => ({ s1 with error := e }, effs)
          | .ok _ =>
            let effs := effs ++ [Effect.dbUpdate candidate.id interestedUpdate]
            match ntfRes with
            | .error e => ({ s1 with error := e }, effs)
            | .ok _ => (s1, effs ++ [Effect.slackNotified])

/-- Is `c` one of the digits 1-3 (the regex character class `[1-3]`)? -/
def slotDigit : Char → Option ℕ
  | '1' => some 1
  | '2' => some 2
  | '3' => some 3
  | _ => none

/-- Scan for the first position matching `\b([1-3])\b`: a digit 1-3 with no
word character directly before or after it.  `prev` is the previous
character. -/
def findDigitGo : Option Char → List Char → Option ℕ
  | _, [] => none
  | prev, c :: rest =>
    match slotDigit c with
    | some n =>
      let okBefore := match prev with
        | none => true
        | some p => !isWordChar p
      let okAfter := match rest with
        | [] => true
        | q :: _ => !isWordChar q
      if okBefore && okAfter then some n else findDigitGo (some c) rest
    | none => findDigitGo (some c) rest

/-- `re.search(r"\b([1-3])\b", message_text)`: the 1-based slot number named
in the reply, if any. -/
def find_slot_number (text : String) : Option ℕ := findDigitGo none text.data

/-- The slot choice of `handle_schedule_time_node` given the parsed digit and
the freshly fetched slots: no digit defaults to the first slot (or a
no-slots error); a digit in range picks that slot; a digit out of range
falls back to the first slot, which with an empty list raises `IndexError`
(`available_slots[0]`). -/
def select_interview_slot : Option ℕ → List Slot → Except String Slot
  | none, [] => .error "No available slots found"
  | none, sl :: _ => .ok sl
  | some n, slots =>
    if h : n - 1 < slots.length then .ok (slots.get ⟨n - 1, h⟩)
    else
      match slots with
      | [] => .error "list index out of range"
      | sl :: _ => .ok sl

/-- `handle_schedule_time_node`: parse the slot number, re-fetch the free
slots (both branches of the source fetch the same call; it is modelled
once), select the slot, create the calendar event, email a confirmation,
update the candidate to `scheduled` and notify Slack.  Everything is inside
the `try`, so each failure — the `IndexError` included — is caught and
recorded. -/
def handle_schedule_time_node (slotsRes : Except String (List Slot))
    (eventRes : Except String CalEvent) (sendRes : Except String Unit)
    (updRes : Except String Bool) (ntfRes : Except String Unit)
    (s : SchedulerState) : Except String (SchedulerState × List Effect) :=
  match s.candidate with
  | none => .error "AttributeError"
  | some candidate =>
    .ok <|
      match slotsRes with
      | .error e => ({ s with error := e }, [])
      | .ok slots =>
        match select_interview_slot (find_slot_number s.message_text) slots with
        | .error e => ({ s with error := e }, [])
        | .ok sel =>
          match eventRes with
          | .error e => ({ s with error := e }, [])
          | .ok ev =>
            let s1 := { s with calendar_event := some ev }
            let effs := [Effect.eventCreated candidate.email sel.start sel.stop]
            match sendRes with
            | .error e => ({ s1 with error := e }, effs)
            | .ok _ =>
              let effs := effs ++ [Effect.emailSent candidate.email "Interview Scheduled"]
              match updRes with
              | .error e => ({ s1 with error := e }, effs)
              | .ok _ =>
                let effs := effs ++
                  [Effect.dbUpdate candidate.id (scheduleUpdate sel.start ev.id)]
                match ntfRes with
                | .error e => ({ s1 with error := e }, effs)
                | .ok _ => (s1, effs ++ [Effect.slackNotified])

/-- `handle_not_interested_node`: set status `rejected` and `reply_received`,
then notify Slack; no candidate-facing email.  The first dereference of the
candidate is inside the `try`, so an unpopulated candidate slot is caught
and recorded rather than escaping. -/
def handle_not_interested_node (updRes : Except String Bool)
    (ntfRes : Except String Unit) (s : SchedulerState) :
    Except String (SchedulerState × List Effect) :=
  .ok <|
    match s.candidate with
    | none => ({ s with error := "AttributeError" }, [])
    | some candidate =>
      match updRes with
      | .error e => ({ s with error := e }, [])
      | .ok _ =>
        let effs := [Effect.dbUpdate candidate.id declineUpdate]
        match ntfRes with
        | .error e => ({ s with error := e }, effs)
        | .ok _ => (s, effs ++ [Effect.slackNotified])

/-- `route_by_intent`: dispatch strictly on the detected intent string; any
other label routes to the terminal state (`END` is `"__end__"`). -/
def route_by_intent (s : SchedulerState) : String :=
  if s.intent == "interested" then "handle_interested"
  else if s.intent == "schedule_time" then "handle_schedule_time"
  else if s.intent == "not_interested" then "handle_not_interested"
  else "__end__"

/-- The compiled scheduler graph (`create_scheduler_agent`): detect intent,
look up the candidate, then follow the conditional edge. -/
def scheduler_workflow (llmRes : Except String String)
    (dbRes : Except String (List Candidate)) (slotsRes : Except String (List Slot))
    (eventRes : Except String CalEvent) (sendRes : Except String Unit)
    (updRes : Except String Bool) (ntfRes : Except String Unit)
    (s0 : SchedulerState) : Except String (SchedulerState × List Effect) :=
  let s1 := detect_intent_node llmRes s0
  let s2 := get_candidate_node dbRes s1
  match route_by_intent s2 with
  | "handle_interested" => handle_interested_node slotsRes sendRes updRes ntfRes s2
  | "handle_schedule_time" =>
    handle_schedule_time_node slotsRes eventRes sendRes updRes ntfRes s2
  | "handle_not_interested" => handle_not_interested_node updRes ntfRes s2
  | _ => .ok (s2, [])

/-- `process_candidate_reply`: run the graph on the initial state; a
non-empty error slot (or an exception escaping a node) is raised to the
caller, otherwise the detected intent is returned with status
`"processed"`. -/
def process_candidate_reply (llmRes : Except String String)
    (dbRes : Except String (List Candidate)) (slotsRes : Except String (List Slot))
    (eventRes : Except String CalEvent) (sendRes : Except String Unit)
    (updRes : Except String Bool) (ntfRes : Except String Unit)
    (candidate_email message_text : String) : Except String (String × String) :=
  match scheduler_workflow llmRes dbRes slotsRes eventRes sendRes updRes ntfRes
      (initialSchedulerState candidate_email message_text) with
  | .error e => .error e
  | .ok (r, _) => if r.error == "" then .ok (r.intent, "processed") else .error r.error

/-! ## Recruiter agent (`agents/recruiter_agent.py`) -/

/-- The recruiter workflow state (`RecruiterState` TypedDict). -/
structure RecruiterState where
  candidate : Candidate
  email_subject : String
  email_body : String
  draft_id : String
  approved : Bool
  error : String
  deriving DecidableEq

/-- The `title`/`company` read out of `json.loads(candidate.job_description)`;
a missing key falls back to the `.get` default. -/
structure JobInfo where
  title : Option String
  company : Option String
  deriving DecidableEq

/-- `generate_email_node`: generate the body via the LLM, then parse the
job-description JSON to derive the subject.  Either failure is caught and
recorded; on the JSON failure the body is not stored (the state is written
only after both succeed). -/
def generate_email_node (llmRes : Except String String)
    (jobInfoRes : Except String JobInfo) (s : RecruiterState) : RecruiterState :=
  match llmRes with
  | .error e => { s with error := e }
  | .ok body =>
    match jobInfoRes with
    | .error e => { s with error := e }
    | .ok ji =>
      { s with
        email_subject := "Exciting " ++ ji.title.getD "Opportunity" ++ " at "
          ++ ji.company.getD "Our Company"
        email_body := body }

/-- Python truthiness of an optional string (`if not candidate.email:`). -/
def truthyOptStr : Option String → Bool
  | none => false
  | some s => !(s == "")

/-- `create_draft_node`: requires a truthy candidate email, creates the Gmail
draft, then records the draft id on the persisted candidate.  Draft or
store failures are caught and recorded. -/
def create_draft_node (draftRes : Except String String) (updRes : Except String Bool)
    (s : RecruiterState) : RecruiterState × List Effect :=
  if !truthyOptStr s.candidate.email then
    ({ s with error := "Candidate email not available" }, [])
  else
    match draftRes with
    | .error e => ({ s with error := e }, [])
    | .ok did =>
      let s1 := { s with draft_id := did }
      let effs := [Effect.draftCreated s.candidate.email did]
      match updRes with
      | .error e => ({ s1 with error := e }, effs)
      | .ok _ => (s1, effs ++ [Effect.dbUpdate s.candidate.id (draftIdUpdate did)])

/-- `send_slack_notification_node`: send the approval request; its `except`
clause only logs — the error slot is deliberately left unchanged and the
workflow continues. -/
def send_slack_notification_node (ntfRes : Except String Unit) (s : RecruiterState) :
    RecruiterState × List Effect :=
  match ntfRes with
  | .error _ => (s, [])
  | .ok _ => (s, [Effect.slackNotified])

/-! ## Approval action (`approve_and_send_email`, recruiter_agent.py)

A standalone operation, not a graph node: its whole body is one
`try/except` returning `False`, so nothing raises past the boundary.  The
store is the in-memory list; the result is (success, store after, effects). -/

/-- `approve_and_send_email`: look the candidate up by id, require a truthy
recorded draft id, send the draft, mark the candidate contacted and notify
Slack. -/
def approve_and_send_email (sendRes : Except String Unit)
    (updRes : Except String Bool) (ntfRes : Except String Unit)
    (db : List Candidate) (now : ℕ) (cid : String) :
    Bool × List Candidate × List Effect :=
  match db.find? (fun c => c.id == some cid) with
  | none => (false, db, [])
  | some c =>
    match c.email_draft_id with
    | none => (false, db, [])
    | some did =>
      if did == "" then (false, db, [])
      else
        match sendRes with
        | .error _ => (false, db, [])
        | .ok _ =>
          match updRes with
          | .error _ => (false, db, [Effect.draftSent did])
          | .ok _ =>
            let db2 := update_candidate_db db cid approveUpdate now
            let effs := [Effect.draftSent did,
              Effect.dbUpdate (some cid) approveUpdate]
            match ntfRes with
            | .error _ => (false, db2, effs)
            | .ok _ => (true, db2, effs ++ [Effect.slackNotified])

/-! ## Screener agent (`agents/screener_agent.py`) -/

/-- The screener workflow state (`ScreenerState` TypedDict);
`processed_resumes` keeps (file name, parsed resume) pairs. -/
structure ScreenerState where
  resume_folder : String
  job_description : JobDescription
  processed_resumes : List (String × ResumeData)
  qualified_candidates : List Candidate
  error : String
  deriving DecidableEq

/-- `parse_resumes_node`: a missing folder records an error; otherwise each
PDF is parsed inside a per-file `try` whose `except` logs and `continue`s —
a failed file is skipped silently, with no error recorded.  The folder check
and the glob run outside any `try`, so a raised glob error escapes the node
(the outer `.error`). -/
def parse_resumes_node (folderExists : Bool) (globRes : Except String (List String))
    (parse : String → Except String ResumeData) (s : ScreenerState) :
    Except String ScreenerState :=
  if !folderExists then
    .ok { s with error := "Resume folder not found: " ++ s.resume_folder }
  else
    match globRes with
    | .error e => .error e
    | .ok files =>
      .ok { s with processed_resumes :=
        files.filterMap fun f => ((parse f).toOption).map fun r => (f, r) }

/-- The `Candidate(...)` constructed by `calculate_scores_node` for a
qualifying resume; `jdJson` is the serialized job description. -/
def mkScreenedCandidate (r : ResumeData) (fit : ℚ) (jdJson : String) : Candidate :=
  { id := none, name := r.name, email := r.email, phone := r.phone,
    resume_data := r, fit_score := fit, job_description := jdJson,
    status := "screened", created_at := none, updated_at := none,
    email_sent := false, email_draft_id := none, reply_received := false,
    interview_scheduled := false, interview_time := none,
    calendar_event_id := none }

/-- `calculate_scores_node`: score each parsed resume inside a per-item `try`
whose `except` logs and `continue`s (a scoring failure skips the resume, no
error recorded); a resume qualifies when its score reaches the threshold.
`score` is the fit-score engine, `serializeJob` pydantic's
`model_dump_json`. -/
def calculate_scores_node (score : ResumeData → Except String ℚ) (threshold : ℚ)
    (serializeJob : JobDescription → String) (s : ScreenerState) : ScreenerState :=
  { s with qualified_candidates :=
      s.processed_resumes.filterMap fun item =>
        match score item.2 with
        | .error _ => none
        | .ok fit =>
          if threshold ≤ fit then
            some (mkScreenedCandidate item.2 fit (serializeJob s.job_description))
          else none }

/-- The save loop of `save_to_database_node`: candidates are saved one by
one; the first raised save error aborts the loop (the whole loop is in one
`try`), leaving the later candidates unsaved; saved rows are replaced by the
store's echo (which carries the assigned id). -/
def saveLoop (save : Candidate → Except String Candidate) :
    List Candidate → List Candidate × Option String
  | [] => ([], none)
  | c :: cs =>
    match save c with
    | .error e => (c :: cs, some e)
    | .ok c2 =>
      let rest := saveLoop save cs
      (c2 :: rest.1, rest.2)

/-- `save_to_database_node`: run the save loop; a raised save error is caught
at the node boundary and recorded. -/
def save_to_database_node (save : Candidate → Except String Candidate)
    (s : ScreenerState) : ScreenerState :=
  let r := saveLoop save s.qualified_candidates
  { s with
    qualified_candidates := r.1
    error := (match r.2 with | some e => e | none => s.error) }

/-- `run_screener`: the linear graph parse → score → save; a non-empty error
slot is raised to the caller, otherwise the qualified candidates are
returned. -/
def run_screener (folderExists : Bool) (globRes : Except String (List String))
    (parse : String → Except String ResumeData)
    (score : ResumeData → Except String ℚ) (threshold : ℚ)
    (serializeJob : JobDescription → String)
    (save : Candidate → Except String Candidate)
    (resume_folder : String) (jd : JobDescription) :
    Except String (List Candidate) :=
  let s0 : ScreenerState := ⟨resume_folder, jd, [], [], ""⟩
  match parse_resumes_node folderExists globRes parse s0 with
  | .error e => .error e
  | .ok s1 =>
    let s2 := calculate_scores_node score threshold serializeJob s1
    let s3 := save_to_database_node save s2
    if s3.error == "" then .ok s3.qualified_candidates else .error s3.error

/-! ## Orchestrator (`orchestrator.py`) -/

/-- The result dict of `run_full_pipeline`; `screened_candidates` is declared
but never filled by the source. -/
structure PipelineResults where
  screened_candidates : List Candidate
  qualified_candidates : List Candidate
  drafts_created : List (String × String)
  deriving DecidableEq

/-- `run_full_pipeline`: phase 1 runs the screener — its outer `except`
re-raises, so a screening exception aborts the run; phase 2 (when
`auto_draft` and the list is non-empty) runs outreach per candidate inside a
per-candidate `try` whose `except` logs and `continue`s, so one candidate's
failure never stops the batch.  `outreach` maps a candidate to its created
draft id. -/
def run_full_pipeline (screenRes : Except String (List Candidate))
    (outreach : Candidate → Except String String) (auto_draft : Bool) :
    Except String PipelineResults :=
  match screenRes with
  | .error e => .error e
  | .ok qs =>
    let drafts :=
      if auto_draft && !qs.isEmpty then
        qs.filterMap fun c => ((outreach c).toOption).map fun d => (c.name, d)
      else []
    .ok ⟨[], qs, drafts⟩

/-! ## Concrete example data used by the closed theorems -/

/-- A candidate as the outreach flow leaves it: contacted, draft recorded. -/
def baseCandidate : Candidate :=
  { id := some "c1", name := "Ana", email := some "ana@example.com", phone := none,
    resume_data := emptyResumeExample, fit_score := 80, job_description := "{}",
    status := "contacted", created_at := none, updated_at := none,
    email_sent := true, email_draft_id := some "d1", reply_received := false,
    interview_scheduled := false, interview_time := none, calendar_event_id := none }

/-- The same candidate after the interested handler ran: status `interested`. -/
def interestedCandidate : Candidate :=
  { baseCandidate with status := "interested", reply_received := true }

/-- Three slots on day 7 (a Monday) at 9, 10 and 11 with one-hour duration. -/
def slotsExample : List Slot :=
  [⟨10620, 10680⟩, ⟨10680, 10740⟩, ⟨10740, 10800⟩]

/-- A created calendar event with a conferencing link. -/
def calEventExample : CalEvent := ⟨some "ev1", some "meet-link"⟩

/-- A small parsed resume. -/
def resumeExample : ResumeData :=
  ⟨"Bea", some "bea@example.com", none, ⟨["Python"], [], []⟩, [], [], none, some 5⟩

/-- A small job description. -/
def jdExample : JobDescription :=
  ⟨"Engineer", "Acme", "Build things", ["Python"], [], none, none⟩

/-- The screener state at the start of a run over the folder `resumes`. -/
def screenerState0 : ScreenerState := ⟨"resumes", jdExample, [], [], ""⟩

/-- A resume parser that fails on `bad.pdf` and succeeds elsewhere. -/
def parseOneFails : String → Except String ResumeData :=
  fun f => if f == "bad.pdf" then .error "PDF parse failure" else .ok resumeExample

/-- Flag monotonicity between two candidate rows: no true flag turns false. -/
def flagsPreserved (a b : Candidate) : Prop :=
  (a.email_sent = true → b.email_sent = true) ∧
  (a.reply_received = true → b.reply_received = true) ∧
  (a.interview_scheduled = true → b.interview_scheduled = true)

/-! ## Theorems -/

/-- A reply consisting of the digit 1 selects the head of a non-empty slot
list (helper for the node-level statements). -/
theorem select_one_head (sl : Slot) (more : List Slot) :
    select_interview_slot (find_slot_number "1") (sl :: more) = .ok sl := by
  have h1 : find_slot_number "1" = some 1 := rfl
  rw [h1]
  simp [select_interview_slot]

/-- Claim C1 (code_bug): for a resume and job description whose documents
yield an empty vocabulary, `calculate_fit_score` does NOT return 0 — the
vectorizer's `ValueError` is re-raised by the function's `except` clause.
This holds for every stop-word list and every such input. -/
theorem calculate_fit_score_empty_vocab_raises (stopWords : List String)
    (r : ResumeData) (j : JobDescription)
    (h : emptyVocabulary stopWords [resume_to_text r, job_description_to_text j] = true) :
    calculate_fit_score stopWords r j
      = .error "empty vocabulary; perhaps the documents only contain stop words" := by
  unfold calculate_fit_score
  simp [h]

/-- Claim C1 witness: the all-empty resume and job description have an empty
vocabulary and the score call yields the raised error, not 0. -/
theorem calculate_fit_score_empty_vocab_raises_witness :
    emptyVocabulary []
        [resume_to_text emptyResumeExample, job_description_to_text emptyJobExample]
      = true ∧
    calculate_fit_score [] emptyResumeExample emptyJobExample
      = .error "empty vocabulary; perhaps the documents only contain stop words" :=
  ⟨by decide,
    calculate_fit_score_empty_vocab_raises [] emptyResumeExample emptyJobExample
      (by decide)⟩

/-- Claim C2 (code_bug): the candidate lookup queries only status
`"contacted"`.  A candidate whose status is `"interested"` (exactly the
state the schedule_time turn needs) is not found even with a matching email,
so the error slot is set; the identical row with status `"contacted"` is
found, showing the status restriction is what fails. -/
theorem get_candidate_node_misses_interested_status :
    (get_candidate_node (.ok [interestedCandidate])
        (initialSchedulerState "Ana@Example.com" "2")).error
      = "Candidate not found with email: Ana@Example.com"
    ∧ (get_candidate_node (.ok [interestedCandidate])
        (initialSchedulerState "Ana@Example.com" "2")).candidate = none
    ∧ (get_candidate_node (.ok [baseCandidate])
        (initialSchedulerState "Ana@Example.com" "2")).candidate = some baseCandidate := by
  decide

/-- Claim C4 counterexample: a schedule_time reply naming slot 2 while zero
slots are available does not select the first slot — the node records the
caught `IndexError` in the error slot and performs no side effect. -/
theorem schedule_digit_with_no_slots_errors :
    handle_schedule_time_node (.ok []) (.ok calEventExample) (.ok ()) (.ok true) (.ok ())
        { initialSchedulerState "ana@example.com" "2" with candidate := some baseCandidate }
      = .ok ({ initialSchedulerState "ana@example.com" "2" with
          candidate := some baseCandidate
          error := "list index out of range" }, []) := by
  rfl

/-- Claim C4 (amended): whenever at least one slot is available, the
schedule handler selects the slot named by the first digit 1-3 of the reply
when it is in range, and defaults to the first slot when no digit is present
or the digit exceeds the available count; only the zero-slot case errors. -/
theorem select_interview_slot_spec (text : String) (slots : List Slot)
    (h : slots ≠ []) :
    (find_slot_number text = none →
      select_interview_slot (find_slot_number text) slots = .ok (slots.head h)) ∧
    ∀ n, find_slot_number text = some n →
      (∀ hn : n - 1 < slots.length,
        select_interview_slot (find_slot_number text) slots
          = .ok (slots.get ⟨n - 1, hn⟩)) ∧
      (slots.length ≤ n - 1 →
        select_interview_slot (find_slot_number text) slots = .ok (slots.head h)) := by
  constructor
  · intro h0
    rw [h0]
    cases slots with
    | nil => exact absurd rfl h
    | cons a l => rfl
  · intro n hn
    rw [hn]
    constructor
    · intro hlt
      simp only [select_interview_slot]
      rw [dif_pos hlt]
    · intro hge
      simp only [select_interview_slot]
      rw [dif_neg (Nat.not_lt.mpr hge)]
      cases slots with
      | nil => exact absurd rfl h
      | cons a l => rfl

/-- Claim C4 witness: reply "Option 2 works best" with three available slots
selects the second slot. -/
theorem select_interview_slot_spec_witness :
    select_interview_slot (find_slot_number "Option 2 works best") slotsExample
      = .ok ⟨10680, 10740⟩ :=
  ((select_interview_slot_spec "Option 2 works best" slotsExample (by decide)).2 2
    (by decide)).1 (by decide)

/-- Claim C5 (amended): every update payload the four operations write moves
the status only forward when applied from the status the operation's normal
control flow provides (approval: `screened`; interested handler: `contacted`;
schedule and decline handlers: `contacted` or `interested`), and no payload
ever resets a true boolean flag.  The approval action itself checks no
status, so this forwardness is conditional on its input status — see the
counterexample. -/
theorem candidate_status_updates_monotone (c : Candidate) (now t : ℕ)
    (eid : Option String) :
    (c.status = "screened" →
      allowedStatusStep c.status (applyCandidateUpdate now approveUpdate c).status
        = true) ∧
    (c.status = "contacted" →
      allowedStatusStep c.status (applyCandidateUpdate now interestedUpdate c).status
        = true) ∧
    (c.status = "contacted" ∨ c.status = "interested" →
      allowedStatusStep c.status
        (applyCandidateUpdate now (scheduleUpdate t eid) c).status = true) ∧
    (c.status = "contacted" ∨ c.status = "interested" →
      allowedStatusStep c.status (applyCandidateUpdate now declineUpdate c).status
        = true) ∧
    ∀ u ∈ [approveUpdate, interestedUpdate, scheduleUpdate t eid, declineUpdate],
      flagsPreserved c (applyCandidateUpdate now u c) := by
  refine ⟨?_, ?_, ?_, ?_, ?_⟩
  · intro h
    have hs : (applyCandidateUpdate now approveUpdate c).status = "contacted" := rfl
    rw [hs, h]; decide
  · intro h
    have hs : (applyCandidateUpdate now interestedUpdate c).status = "interested" := rfl
    rw [hs, h]; decide
  · intro h
    have hs : (applyCandidateUpdate now (scheduleUpdate t eid) c).status = "scheduled" :=
      rfl
    rcases h with h | h <;> rw [hs, h] <;> decide
  · intro h
    have hs : (applyCandidateUpdate now declineUpdate c).status = "rejected" := rfl
    rcases h with h | h <;> rw [hs, h] <;> decide
  · intro u hu
    fin_cases hu <;>
      exact ⟨fun h => by first | rfl | exact h, fun h => by first | rfl | exact h,
        fun h => by first | rfl | exact h⟩

/-- Claim C5 counterexample: the approval action applied to a candidate whose
status is already `interested` (it has a recorded draft, so the action
proceeds) rewrites the status back to `contacted`, a step the invariant
forbids. -/
theorem approve_on_interested_candidate_backward :
    ((approve_and_send_email (.ok ()) (.ok true) (.ok ())
        [interestedCandidate] 0 "c1").2.1.map Candidate.status) = ["contacted"]
    ∧ allowedStatusStep "interested" "contacted" = false := by
  decide

/-- Claim C8: a screening-phase exception propagates out of
`run_full_pipeline` unchanged, while per-candidate outreach results are
collected by a loop that applies `outreach` to every qualified candidate —
one candidate's failure only drops its own entry and never stops the
batch. -/
theorem run_full_pipeline_error_policy (e : String)
    (outreach : Candidate → Except String String) (auto_draft : Bool)
    (qs : List Candidate) :
    run_full_pipeline (.error e) outreach auto_draft = .error e ∧
    run_full_pipeline (.ok qs) outreach true
      = .ok ⟨[], qs,
          qs.filterMap fun c => ((outreach c).toOption).map fun d => (c.name, d)⟩ := by
  constructor
  · rfl
  · unfold run_full_pipeline
    cases hq : qs with
    | nil => rfl
    | cons a l => rfl

/-- Claim C9: when the candidate id is unknown to the store or the stored row
has no recorded draft id, the approval action returns `False`, leaves the
store untouched and performs no side effect (no draft is sent, no update, no
notification); the surrounding `try/except` means nothing raises past the
operation boundary. -/
theorem approve_without_draft_fails (sendRes : Except String Unit)
    (updRes : Except String Bool) (ntfRes : Except String Unit)
    (db : List Candidate) (now : ℕ) (cid : String)
    (h : ∀ c ∈ db, c.id = some cid → c.email_draft_id = none) :
    approve_and_send_email sendRes updRes ntfRes db now cid = (false, db, []) := by
  cases hf : db.find? (fun c => c.id == some cid) with
  | none => simp only [approve_and_send_email, hf]
  | some c =>
    have hmem : c ∈ db := List.mem_of_find?_eq_some hf
    have hid : c.id = some cid := by
      have := List.find?_some hf
      exact eq_of_beq this
    simp only [approve_and_send_email, hf, h c hmem hid]

/-- Claim C9 witness: a store holding the candidate `c1` without a draft id
makes the approval of `c1` fail with no effect, and an unknown id `zz`
likewise. -/
theorem approve_without_draft_fails_witness :
    approve_and_send_email (.ok ()) (.ok true) (.ok ())
        [{ baseCandidate with email_draft_id := none }] 0 "c1"
      = (false, [{ baseCandidate with email_draft_id := none }], []) :=
  approve_without_draft_fails (.ok ()) (.ok true) (.ok ())
    [{ baseCandidate with email_draft_id := none }] 0 "c1" (by decide)

/-- Unpacking one successful hour check of the calendar scan: the slot's
start, length, not-in-the-past and busy-free facts. -/
theorem daySlotAt_eq_some {now duration day hour : ℕ} {busy : List (ℕ × ℕ)}
    {s : Slot} (h : daySlotAt now duration busy day hour = some s) :
    s.start = slotStartMin day hour ∧ s.stop = s.start + duration ∧
    now ≤ s.start ∧ overlapsBusy s.start s.stop busy = false := by
  unfold daySlotAt at h
  by_cases h1 : slotStartMin day hour < now
  · rw [if_pos h1] at h
    exact absurd h (by simp)
  · rw [if_neg h1] at h
    by_cases h2 : overlapsBusy (slotStartMin day hour)
        (slotStartMin day hour + duration) busy = true
    · rw [if_pos h2] at h
      exact absurd h (by simp)
    · rw [if_neg h2] at h
      obtain rfl := Option.some.inj h
      exact ⟨rfl, rfl, Nat.le_of_not_lt h1, by simpa using h2⟩

/-- A slot of one scanned day comes from one of the hours 9..16. -/
theorem mem_daySlots {now duration day : ℕ} {busy : List (ℕ × ℕ)} {s : Slot}
    (hs : s ∈ daySlots now duration busy day) :
    ∃ hour, 9 ≤ hour ∧ hour < 17 ∧ daySlotAt now duration busy day hour = some s := by
  unfold daySlots at hs
  rw [List.mem_filterMap] at hs
  obtain ⟨hour, hh, hf⟩ := hs
  rw [List.mem_range'] at hh
  obtain ⟨i, hi, rfl⟩ := hh
  exact ⟨9 + 1 * i, by omega, by omega, hf⟩

/-- One day's slots are in strictly increasing start order. -/
theorem daySlots_sorted (now duration day : ℕ) (busy : List (ℕ × ℕ)) :
    (daySlots now duration busy day).Pairwise fun a b => a.start < b.start := by
  unfold daySlots
  rw [List.pairwise_filterMap]
  refine (List.pairwise_lt_range' 9 8).imp ?_
  intro a b hab x hx y hy
  obtain ⟨hxs, _, _, _⟩ := daySlotAt_eq_some (Option.mem_def.mp hx)
  obtain ⟨hys, _, _, _⟩ := daySlotAt_eq_some (Option.mem_def.mp hy)
  rw [hxs, hys]
  unfold slotStartMin
  omega

/-- Every slot the day loop collects beyond the accumulator belongs to a
scanned non-weekend day. -/
theorem mem_collectSlots {now duration : ℕ} {busy : List (ℕ × ℕ)} :
    ∀ (days : List ℕ) (acc : List Slot) (s : Slot),
      s ∈ collectSlots now duration busy days acc →
      s ∈ acc ∨ ∃ d ∈ days, weekdayOf d < 5 ∧ s ∈ daySlots now duration busy d := by
  intro days
  induction days with
  | nil => exact fun acc s hs => Or.inl hs
  | cons d ds ih =>
    intro acc s hs
    unfold collectSlots at hs
    by_cases hw : 5 ≤ weekdayOf d
    · rw [if_pos hw] at hs
      rcases ih acc s hs with h | ⟨d2, hd2, hw2, hs2⟩
      · exact Or.inl h
      · exact Or.inr ⟨d2, List.mem_cons_of_mem _ hd2, hw2, hs2⟩
    · rw [if_neg hw] at hs
      by_cases hl : 3 ≤ (acc ++ daySlots now duration busy d).length
      · rw [if_pos hl] at hs
        rcases List.mem_append.mp hs with h | h
        · exact Or.inl h
        · exact Or.inr ⟨d, List.mem_cons_self d ds, by omega, h⟩
      · rw [if_neg hl] at hs
        rcases ih _ s hs with h | ⟨d2, hd2, hw2, hs2⟩
        · rcases List.mem_append.mp h with h | h
          · exact Or.inl h
          · exact Or.inr ⟨d, List.mem_cons_self d ds, by omega, h⟩
        · exact Or.inr ⟨d2, List.mem_cons_of_mem _ hd2, hw2, hs2⟩

/-- The day loop keeps the collected slots in strictly increasing start
order: the days are scanned in increasing order and each day's slots lie
between 9am and 5pm of that day. -/
theorem collectSlots_sorted {now duration : ℕ} {busy : List (ℕ × ℕ)} :
    ∀ (days : List ℕ) (acc : List Slot),
      acc.Pairwise (fun a b => a.start < b.start) →
      days.Pairwise (· < ·) →
      (∀ a ∈ acc, ∀ d ∈ days, a.start < slotStartMin d 9) →
      (collectSlots now duration busy days acc).Pairwise
        fun a b => a.start < b.start := by
  intro days
  induction days with
  | nil => exact fun acc hacc _ _ => hacc
  | cons d ds ih =>
    intro acc hacc hdays hcross
    unfold collectSlots
    have hdd : ∀ d2 ∈ ds, d < d2 := (List.pairwise_cons.mp hdays).1
    have hds : ds.Pairwise (· < ·) := (List.pairwise_cons.mp hdays).2
    by_cases hw : 5 ≤ weekdayOf d
    · rw [if_pos hw]
      exact ih acc hacc hds
        fun a ha d2 hd2 => hcross a ha d2 (List.mem_cons_of_mem _ hd2)
    · rw [if_neg hw]
      have hacc2 : (acc ++ daySlots now duration busy d).Pairwise
          fun a b => a.start < b.start := by
        rw [List.pairwise_append]
        refine ⟨hacc, daySlots_sorted now duration d busy, ?_⟩
        intro a ha b hb
        obtain ⟨hour, h9, h17, hbf⟩ := mem_daySlots hb
        obtain ⟨hbs, _, _, _⟩ := daySlotAt_eq_some hbf
        have hstep := hcross a ha d (List.mem_cons_self d ds)
        have hb9 : slotStartMin d 9 ≤ b.start := by
          rw [hbs]; unfold slotStartMin; omega
        omega
      by_cases hl : 3 ≤ (acc ++ daySlots now duration busy d).length
      · rw [if_pos hl]
        exact hacc2
      · rw [if_neg hl]
        refine ih _ hacc2 hds ?_
        intro a ha d2 hd2
        rcases List.mem_append.mp ha with h | h
        · exact hcross a h d2 (List.mem_cons_of_mem _ hd2)
        · obtain ⟨hour, h9, h17, haf⟩ := mem_daySlots h
          obtain ⟨has, _, _, _⟩ := daySlotAt_eq_some haf
          have hlt := hdd d2 hd2
          rw [has]
          unfold slotStartMin
          omega

/-- Claim C3: for every now, look-ahead, duration and busy-interval list,
`get_free_slots` returns at most 3 slots, in chronological order, none
starting before now, none starting on a Saturday or Sunday, each one
`duration` minutes long, and none overlapping any busy interval
(`S.start < B.end AND S.end > B.start` never holds). -/
theorem get_free_slots_spec (now days_ahead duration : ℕ) (busy : List (ℕ × ℕ)) :
    (get_free_slots now days_ahead duration busy).length ≤ 3 ∧
    (get_free_slots now days_ahead duration busy).Pairwise
      (fun a b => a.start < b.start) ∧
    ∀ s ∈ get_free_slots now days_ahead duration busy,
      now ≤ s.start ∧ weekdayOf (s.start / 1440) < 5 ∧
      s.stop = s.start + duration ∧
      ∀ b ∈ busy, ¬(s.start < b.2 ∧ b.1 < s.stop) := by
  have hdaysSorted :
      ((List.range days_ahead).map fun off => now / 1440 + off).Pairwise (· < ·) :=
    (List.pairwise_lt_range days_ahead).map _ fun a b h => by omega
  refine ⟨?_, ?_, ?_⟩
  · exact List.length_take_le 3 _
  · exact List.Pairwise.sublist (List.take_sublist 3 _)
      (collectSlots_sorted _ [] List.Pairwise.nil hdaysSorted
        fun a ha => absurd ha (List.not_mem_nil a))
  · intro s hs
    have hs2 := List.take_subset 3 _ hs
    rcases mem_collectSlots _ [] s hs2 with h | ⟨d, _, hw, hmem⟩
    · exact absurd h (List.not_mem_nil s)
    · obtain ⟨hour, h9, h17, hf⟩ := mem_daySlots hmem
      obtain ⟨hstart, hstop, hnow, hov⟩ := daySlotAt_eq_some hf
      have hdiv : s.start / 1440 = d := by
        rw [hstart]; unfold slotStartMin; omega
      refine ⟨hnow, by rw [hdiv]; exact hw, hstop, ?_⟩
      intro b hb hcontra
      have hfalse : (decide (s.start < b.2) && decide (b.1 < s.stop)) = false := by
        unfold overlapsBusy at hov
        rw [List.any_eq_false] at hov
        simpa using hov b hb
      simp [hcontra.1, hcontra.2] at hfalse

/-- Claim C6 counterexample: a per-file parse failure inside
`parse_resumes_node` is caught and swallowed — the failing file is skipped,
the node completes normally and the error slot stays empty — although the
parse node is not a notification node, so the claimed record-in-error-slot
policy does not hold for it. -/
theorem parse_failure_swallowed_without_error :
    parse_resumes_node true (.ok ["bad.pdf", "good.pdf"]) parseOneFails screenerState0
      = .ok { screenerState0 with processed_resumes := [("good.pdf", resumeExample)] } := by
  rfl

/-- Claim C6 (amended): for every workflow node, an exception raised inside
the node is caught at the node boundary and recorded in the workflow-state
error slot instead of propagating out of the node, with these exceptions:
the outreach notification node swallows the exception entirely and records
no error (it is the only node that does — the chat-notification failures
inside the scheduler handlers are caught and recorded like any other, as the
conjuncts failing `ntfRes` show); the per-file and per-candidate loops of
the screening parse and score nodes swallow the failing item's exception
and continue with no error recorded; and two code paths sit outside any
try block, so their exceptions escape the node uncaught and unrecorded:
the opening log line of `handle_interested_node` and of
`handle_schedule_time_node` dereferences `state["candidate"].name` before
the try (an unpopulated candidate slot — reachable, since routing dispatches
on intent even after a failed lookup — raises `AttributeError` out of the
node and out of `process_candidate_reply`), and the folder check and glob of
the parse node run before its per-file try (a raised glob error escapes).
By contrast `handle_not_interested_node` first touches the candidate inside
its try, so there the unpopulated slot is caught and recorded.  Each
conjunct fails exactly one call or precondition of one node and gives the
node's complete observable outcome. -/
theorem node_exception_capture_policy (st : SchedulerState) (rst : RecruiterState)
    (sst : ScreenerState) (c cand : Candidate) (e : String) (slots : List Slot)
    (sl : Slot) (more : List Slot) (ev : CalEvent) (b : Bool) (did body : String)
    (files : List String) (parse : String → Except String ResumeData)
    (score : ResumeData → Except String ℚ) (threshold : ℚ)
    (serializeJob : JobDescription → String) (cs : List Candidate)
    (sendRes : Except String Unit) (updRes : Except String Bool)
    (ntfRes : Except String Unit) (evRes : Except String CalEvent)
    (jiRes : Except String JobInfo) (slotsRes : Except String (List Slot)) :
    detect_intent_node (.error e) st = { st with error := e } ∧
    get_candidate_node (.error e) st = { st with error := e } ∧
    handle_interested_node (.error e) sendRes updRes ntfRes
        { st with candidate := some c }
      = .ok ({ st with candidate := some c, error := e }, []) ∧
    handle_interested_node (.ok slots) (.error e) updRes ntfRes
        { st with candidate := some c }
      = .ok ({ st with candidate := some c, available_slots := slots, error := e },
          []) ∧
    handle_interested_node (.ok slots) (.ok ()) (.error e) ntfRes
        { st with candidate := some c }
      = .ok ({ st with candidate := some c, available_slots := slots, error := e },
          [Effect.emailSent c.email "Re: Interview Times"]) ∧
    handle_interested_node (.ok slots) (.ok ()) (.ok b) (.error e)
        { st with candidate := some c }
      = .ok ({ st with candidate := some c, available_slots := slots, error := e },
          [Effect.emailSent c.email "Re: Interview Times",
            Effect.dbUpdate c.id interestedUpdate]) ∧
    handle_schedule_time_node (.error e) evRes sendRes updRes ntfRes
        { st with candidate := some c, message_text := "2" }
      = .ok ({ st with candidate := some c, message_text := "2", error := e }, []) ∧
    handle_schedule_time_node (.ok (sl :: more)) (.error e) sendRes updRes ntfRes
        { st with candidate := some c, message_text := "1" }
      = .ok ({ st with candidate := some c, message_text := "1", error := e }, []) ∧
    handle_schedule_time_node (.ok (sl :: more)) (.ok ev) (.error e) updRes ntfRes
        { st with candidate := some c, message_text := "1" }
      = .ok ({ st with
            candidate := some c
            message_text := "1"
            calendar_event := some ev
            error := e },
          [Effect.eventCreated c.email sl.start sl.stop]) ∧
    handle_schedule_time_node (.ok (sl :: more)) (.ok ev) (.ok ()) (.error e) ntfRes
        { st with candidate := some c, message_text := "1" }
      = .ok ({ st with
            candidate := some c
            message_text := "1"
            calendar_event := some ev
            error := e },
          [Effect.eventCreated c.email sl.start sl.stop,
            Effect.emailSent c.email "Interview Scheduled"]) ∧
    handle_schedule_time_node (.ok (sl :: more)) (.ok ev) (.ok ()) (.ok b) (.error e)
        { st with candidate := some c, message_text := "1" }
      = .ok ({ st with
            candidate := some c
            message_text := "1"
            calendar_event := some ev
            error := e },
          [Effect.eventCreated c.email sl.start sl.stop,
            Effect.emailSent c.email "Interview Scheduled",
            Effect.dbUpdate c.id (scheduleUpdate sl.start ev.id)]) ∧
    handle_not_interested_node (.error e) ntfRes { st with candidate := some c }
      = .ok ({ st with candidate := some c, error := e }, []) ∧
    handle_not_interested_node (.ok b) (.error e) { st with candidate := some c }
      = .ok ({ st with candidate := some c, error := e },
          [Effect.dbUpdate c.id declineUpdate]) ∧
    generate_email_node (.error e) jiRes rst = { rst with error := e } ∧
    generate_email_node (.ok body) (.error e) rst = { rst with error := e } ∧
    create_draft_node (.error e) updRes
        { rst with candidate := { cand with email := some "a@b.co" } }
      = ({ rst with candidate := { cand with email := some "a@b.co" }, error := e },
          []) ∧
    create_draft_node (.ok did) (.error e)
        { rst with candidate := { cand with email := some "a@b.co" } }
      = ({ rst with
            candidate := { cand with email := some "a@b.co" }
            draft_id := did
            error := e },
          [Effect.draftCreated (some "a@b.co") did]) ∧
    send_slack_notification_node (.error e) rst = (rst, []) ∧
    parse_resumes_node true (.ok files) parse sst
      = .ok { sst with processed_resumes :=
          files.filterMap fun f => ((parse f).toOption).map fun r => (f, r) } ∧
    (calculate_scores_node score threshold serializeJob sst).error = sst.error ∧
    save_to_database_node (fun _ => .error e)
        { sst with qualified_candidates := cand :: cs }
      = { sst with qualified_candidates := cand :: cs, error := e } ∧
    handle_interested_node slotsRes sendRes updRes ntfRes
        { st with candidate := none }
      = .error "AttributeError" ∧
    handle_schedule_time_node slotsRes evRes sendRes updRes ntfRes
        { st with candidate := none }
      = .error "AttributeError" ∧
    handle_not_interested_node updRes ntfRes { st with candidate := none }
      = .ok ({ st with candidate := none, error := "AttributeError" }, []) ∧
    parse_resumes_node true (.error e) parse sst = .error e ∧
    process_candidate_reply (.ok "interested") (.ok []) slotsRes evRes sendRes
        updRes ntfRes "x@y.com" "hi"
      = .error "AttributeError" := by
  refine ⟨rfl, rfl, rfl, rfl, rfl, rfl, rfl, ?_, ?_, ?_, ?_, rfl, rfl, rfl, rfl,
      rfl, rfl, rfl, rfl, rfl, rfl, rfl, rfl, rfl, rfl, rfl⟩ <;>
  · dsimp only [handle_schedule_time_node]
    rw [select_one_head]
    try rfl

/-- The save loop with an always-succeeding store saves every candidate and
reports no error. -/
theorem saveLoop_ok (saved : Candidate → Candidate) :
    ∀ l : List Candidate, saveLoop (fun c => .ok (saved c)) l = (l.map saved, none) := by
  intro l
  induction l with
  | nil => rfl
  | cons c cs ih => simp [saveLoop, ih]

/-- A filterMap whose function guards on a predicate of a projection is the
projected list filtered and mapped. -/
theorem filterMap_guard_map {α β γ : Type _} (g : α → β) (q : β → Prop)
    [DecidablePred q] (h : β → γ) (l : List α) :
    (l.filterMap fun a => if q (g a) then some (h (g a)) else none)
      = ((l.map g).filter fun b => decide (q b)).map h := by
  induction l with
  | nil => rfl
  | cons a tl ih =>
    by_cases hq : q (g a)
    · simp [hq, ih]
    · simp [hq, ih]

/-- Claim C7: with every parsed resume scored (total scoring) and a store
that accepts every row, the screening workflow materializes exactly the
successfully parsed resumes whose fit score reaches the threshold, in input
order (not sorted by score), each constructed with status `screened`, and
silently drops the rest.  `saved` is the store's echo of a saved row. -/
theorem run_screener_materializes_threshold (files : List String)
    (parse : String → Except String ResumeData) (scoreOf : ResumeData → ℚ)
    (threshold : ℚ) (serializeJob : JobDescription → String)
    (saved : Candidate → Candidate) (folder : String) (jd : JobDescription) :
    run_screener true (.ok files) parse (fun r => .ok (scoreOf r)) threshold
        serializeJob (fun c => .ok (saved c)) folder jd
      = .ok ((((files.filterMap fun f => ((parse f).toOption).map fun r => (f, r)).map
              Prod.snd).filter fun r => decide (threshold ≤ scoreOf r)).map
            fun r => saved (mkScreenedCandidate r (scoreOf r) (serializeJob jd)))
    ∧ ∀ r fit jdJson, (mkScreenedCandidate r fit jdJson).status = "screened" := by
  have hQ : ∀ P : List (String × ResumeData),
      (calculate_scores_node (fun r => .ok (scoreOf r)) threshold serializeJob
          ⟨folder, jd, P, [], ""⟩).qualified_candidates
        = ((P.map Prod.snd).filter fun r => decide (threshold ≤ scoreOf r)).map
            fun r => mkScreenedCandidate r (scoreOf r) (serializeJob jd) :=
    fun P => filterMap_guard_map Prod.snd (fun r => threshold ≤ scoreOf r)
      (fun r => mkScreenedCandidate r (scoreOf r) (serializeJob jd)) P
  have hs3q : ∀ s : ScreenerState,
      (save_to_database_node (fun c => .ok (saved c)) s).qualified_candidates
        = s.qualified_candidates.map saved := by
    intro s
    simp [save_to_database_node, saveLoop_ok]
  have hs3e : ∀ s : ScreenerState,
      (save_to_database_node (fun c => .ok (saved c)) s).error = s.error := by
    intro s
    simp [save_to_database_node, saveLoop_ok]
  constructor
  · have hparse : parse_resumes_node true (.ok files) parse ⟨folder, jd, [], [], ""⟩
        = .ok ⟨folder, jd,
            files.filterMap fun f => ((parse f).toOption).map fun r => (f, r),
            [], ""⟩ := rfl
    unfold run_screener
    dsimp only
    rw [hparse]
    dsimp only
    rw [hs3e, hs3q, hQ, List.map_map]
    rfl
  · intro r fit jdJson
    rfl

/-- Claim C10 counterexample: a reply whose detected intent is the
unrecognized label `unknown` routes to the terminal state with no handler,
yet the workflow does not complete successfully — the earlier lookup step
recorded a not-found error, so `process_candidate_reply` raises it. -/
theorem unknown_intent_with_failed_lookup_raises :
    process_candidate_reply (.ok "unknown") (.ok []) (.ok []) (.ok calEventExample)
        (.ok ()) (.ok true) (.ok ()) "x@y.com" "hello"
      = .error "Candidate not found with email: x@y.com" := by
  rfl

/-- Claim C10 (amended): for every detected intent other than the three
recognized labels, the workflow routes directly to the terminal state — no
handler node runs, no candidate update and no outbound message happens, and
routing records no error; provided intent detection succeeded and the
candidate lookup found the sender, the workflow then completes successfully
as a silent no-op. -/
theorem unknown_intent_silent_noop (lbl : String) (db : List Candidate)
    (slotsRes : Except String (List Slot)) (eventRes : Except String CalEvent)
    (sendRes : Except String Unit) (updRes : Except String Bool)
    (ntfRes : Except String Unit) (email text : String) (c : Candidate)
    (h1 : lowerString (stripString lbl) ≠ "interested")
    (h2 : lowerString (stripString lbl) ≠ "schedule_time")
    (h3 : lowerString (stripString lbl) ≠ "not_interested")
    (h4 : (get_candidates_by_status db "contacted").find?
        (fun cc => emailMatches cc email) = some c) :
    scheduler_workflow (.ok lbl) (.ok db) slotsRes eventRes sendRes updRes ntfRes
        (initialSchedulerState email text)
      = .ok ({ initialSchedulerState email text with
          intent := lowerString (stripString lbl)
          candidate := some c }, [])
    ∧ process_candidate_reply (.ok lbl) (.ok db) slotsRes eventRes sendRes updRes
        ntfRes email text = .ok (lowerString (stripString lbl), "processed") := by
  have hwf : scheduler_workflow (.ok lbl) (.ok db) slotsRes eventRes sendRes updRes
      ntfRes (initialSchedulerState email text)
      = .ok ({ initialSchedulerState email text with
          intent := lowerString (stripString lbl)
          candidate := some c }, []) := by
    unfold scheduler_workflow detect_intent_node get_candidate_node
    dsimp only [initialSchedulerState]
    rw [h4]
    unfold route_by_intent
    dsimp only
    rw [if_neg (by simp [h1]), if_neg (by simp [h2]), if_neg (by simp [h3])]
    rfl
  refine ⟨hwf, ?_⟩
  unfold process_candidate_reply
  rw [hwf]
  rfl

/-- Claim C10 witness: the unrecognized label `Unknown` over a store holding
the contacted candidate `ana@example.com` completes as a silent no-op. -/
theorem unknown_intent_silent_noop_witness :
    scheduler_workflow (.ok "Unknown") (.ok [baseCandidate]) (.ok [])
        (.ok calEventExample) (.ok ()) (.ok true) (.ok ())
        (initialSchedulerState "ana@example.com" "hello")
      = .ok ({ initialSchedulerState "ana@example.com" "hello" with
          intent := lowerString (stripString "Unknown")
          candidate := some baseCandidate }, [])
    ∧ process_candidate_reply (.ok "Unknown") (.ok [baseCandidate]) (.ok [])
        (.ok calEventExample) (.ok ()) (.ok true) (.ok ())
        "ana@example.com" "hello"
      = .ok (lowerString (stripString "Unknown"), "processed") :=
  unknown_intent_silent_noop "Unknown" [baseCandidate] (.ok []) (.ok calEventExample)
    (.ok ()) (.ok true) (.ok ()) "ana@example.com" "hello" baseCandidate
    (by decide) (by decide) (by decide) (by decide)

end TalentScout
